import Mathlib

set_option maxRecDepth 100000

/-!
Verification of the arq crate (a reader for the Arq Backup data format)
against its specification. The crate's decoders are shallowly embedded:
byte streams are `List Nat` (each element one byte), every fallible Rust
function returns `PRes`, and the external collaborators the crate calls
through other crates (PBKDF2, HMAC-SHA256, SHA-1, AES-256-CBC block
decryption, the LZ4 C library, the plist deserialiser) are passed in as
function parameters, exactly as the spec's section 6 lists them as
collaborator interfaces. All control flow, field layout, error selection
and panic sites are translated from the crate's own source.
-/

/-- The crate's error enum (src/error.rs). Payload-carrying variants keep
only the kind: the payloads (Utf8Error, io::Error, DecompressError) do not
affect any control flow in the crate. -/
inductive Err where
  | wrongPassword
  | cryptoError
  | cipherError
  | blockModeError
  | parseError
  | conversionError
  | ioError
  | decompressionError
  | decompressionDataLengthOutOfBounds
  deriving DecidableEq, Repr

/-- Outcome of a Rust function of the crate: a successful value, a returned
`Err`, or a Rust panic. `fatal` models the panic outcome (a failed
`assert_eq!` or `assert!`, slice indexing out of bounds, `unimplemented`,
or an explicit panic invocation). -/
inductive PRes (α : Type) where
  | ok : α → PRes α
  | err : Err → PRes α
  | fatal : PRes α
  deriving DecidableEq, Repr

/-- Sequencing of fallible Rust computations: models `?` propagation of
errors; a panic aborts everything after it as well. -/
def PRes.bind {α β : Type} : PRes α → (α → PRes β) → PRes β
  | .ok a, f => f a
  | .err e, _ => .err e
  | .fatal, _ => .fatal

/-- Whether the computation returned Ok. -/
def PRes.isOk {α : Type} : PRes α → Bool
  | .ok _ => true
  | _ => false

theorem PRes.bind_eq_ok {α β : Type} (m : PRes α) (f : α → PRes β) (b : β)
    (h : PRes.bind m f = .ok b) : ∃ a, m = .ok a ∧ f a = .ok b := by
  cases m with
  | ok a => exact ⟨a, rfl, h⟩
  | err e => simp [PRes.bind] at h
  | fatal => simp [PRes.bind] at h

/-- Split off the first `n` bytes of a stream, or fail when fewer remain.
This is the effect of `read_exact` into an `n`-byte buffer. -/
def splitN : Nat → List Nat → Option (List Nat × List Nat)
  | 0, s => some ([], s)
  | _ + 1, [] => none
  | n + 1, b :: s =>
    match splitN n s with
    | some (xs, r) => some (b :: xs, r)
    | none => none

theorem splitN_append (a r : List Nat) : splitN a.length (a ++ r) = some (a, r) := by
  induction a with
  | nil => rfl
  | cons b t ih => simp [splitN, ih]

theorem splitN_some (n : Nat) (s xs r : List Nat) (h : splitN n s = some (xs, r)) :
    xs.length = n ∧ s = xs ++ r := by
  induction n generalizing s xs r with
  | zero => cases h; simp
  | succ m ih =>
    cases s with
    | nil => simp [splitN] at h
    | cons b t =>
      simp only [splitN] at h
      cases hm : splitN m t with
      | none => rw [hm] at h; simp at h
      | some p =>
        rw [hm] at h
        cases p with
        | mk ys r2 =>
          simp at h
          obtain ⟨h1, h2⟩ := h
          obtain ⟨hl, he⟩ := ih t ys r2 hm
          subst h1 h2
          simp [hl, he]

/-- `ArqRead::read_bytes` (src/type_utils.rs): read exactly `count` bytes;
a short read is an `IoError`. -/
def readBytes (n : Nat) (s : List Nat) : PRes (List Nat × List Nat) :=
  match splitN n s with
  | some p => .ok p
  | none => .err .ioError

theorem readBytes_append (a r : List Nat) : readBytes a.length (a ++ r) = .ok (a, r) := by
  simp [readBytes, splitN_append]

theorem readBytes_ok (n : Nat) (s xs r : List Nat) (h : readBytes n s = .ok (xs, r)) :
    xs.length = n ∧ s = xs ++ r := by
  unfold readBytes at h
  cases hs : splitN n s with
  | none => rw [hs] at h; simp at h
  | some p =>
    obtain ⟨ys, r2⟩ := p
    rw [hs] at h
    simp at h
    obtain ⟨h1, h2⟩ := h
    subst h1
    subst h2
    exact splitN_some n s ys r2 hs

/-- Big-endian ("network byte order") value of a byte list. -/
def fromBE (l : List Nat) : Nat := l.foldl (fun acc b => acc * 256 + b) 0

/-- `read_u32::<NetworkEndian>`: four bytes, big-endian. -/
def readU32 (s : List Nat) : PRes (Nat × List Nat) :=
  PRes.bind (readBytes 4 s) fun p => .ok (fromBE p.1, p.2)

/-- `read_u64::<NetworkEndian>`: eight bytes, big-endian. -/
def readU64 (s : List Nat) : PRes (Nat × List Nat) :=
  PRes.bind (readBytes 8 s) fun p => .ok (fromBE p.1, p.2)

/-- Two's-complement reading of an unsigned big-endian value of `2^bits`. -/
def toSigned (bits : Nat) (v : Nat) : Int :=
  if v < 2 ^ (bits - 1) then (v : Int) else (v : Int) - 2 ^ bits

/-- `read_i32::<NetworkEndian>`: four bytes, big-endian, two's complement. -/
def readI32 (s : List Nat) : PRes (Int × List Nat) :=
  PRes.bind (readBytes 4 s) fun p => .ok (toSigned 32 (fromBE p.1), p.2)

/-- `read_i64::<NetworkEndian>`: eight bytes, big-endian, two's complement. -/
def readI64 (s : List Nat) : PRes (Int × List Nat) :=
  PRes.bind (readBytes 8 s) fun p => .ok (toSigned 64 (fromBE p.1), p.2)

/-- A UTF-8 continuation byte (0x80..=0xBF). -/
def contB (b : Nat) : Bool := 128 ≤ b && b ≤ 191

/-- Validity of a byte list as UTF-8, as `str::from_utf8` checks it
(RFC 3629: no overlong forms, no surrogates, max U+10FFFF). -/
def validUtf8 : List Nat → Bool
  | [] => true
  | b :: r =>
    if b ≤ 127 then validUtf8 r
    else if 194 ≤ b && b ≤ 223 then
      match r with
      | c1 :: r1 => contB c1 && validUtf8 r1
      | [] => false
    else if 224 ≤ b && b ≤ 239 then
      match r with
      | c1 :: c2 :: r2 =>
        (if b = 224 then 160 ≤ c1 && c1 ≤ 191
         else if b = 237 then 128 ≤ c1 && c1 ≤ 159
         else contB c1) && contB c2 && validUtf8 r2
      | _ => false
    else if 240 ≤ b && b ≤ 244 then
      match r with
      | c1 :: c2 :: c3 :: r3 =>
        (if b = 240 then 144 ≤ c1 && c1 ≤ 191
         else if b = 244 then 128 ≤ c1 && c1 ≤ 143
         else contB c1) && contB c2 && contB c3 && validUtf8 r3
      | _ => false
    else false

/-- `read_arq_string` (src/type_utils.rs): one presence byte; when it is
0x01, a big-endian u64 length and that many UTF-8 bytes; otherwise the
empty string. A Rust `String` is modelled by its byte list; invalid UTF-8
is a `ConversionError`. -/
def read_arq_string (s : List Nat) : PRes (List Nat × List Nat) :=
  PRes.bind (readBytes 1 s) fun p =>
    if p.1 = [1] then
      PRes.bind (readU64 p.2) fun q =>
        PRes.bind (readBytes q.1 q.2) fun d =>
          if validUtf8 d.1 then .ok (d.1, d.2) else .err .conversionError
    else .ok ([], p.2)

/-- `read_arq_bool`: one byte; 0x01 is true, anything else false. -/
def read_arq_bool (s : List Nat) : PRes (Bool × List Nat) :=
  PRes.bind (readBytes 1 s) fun p => .ok (p.1 = [1], p.2)

/-- `read_arq_data`: an unconditional big-endian u64 length then that many
bytes. -/
def read_arq_data (s : List Nat) : PRes (List Nat × List Nat) :=
  PRes.bind (readU64 s) fun p =>
    PRes.bind (readBytes p.1 p.2) fun d => .ok (d.1, d.2)

/-- `ArqDate` (src/type_utils.rs): milliseconds since the epoch, 0 when the
presence byte is absent. -/
structure ArqDate where
  milliseconds_since_epoch : Nat
  deriving DecidableEq, Repr

/-- `ArqDate::new`: one presence byte; when it is 0x01, a big-endian u64. -/
def ArqDate.new (s : List Nat) : PRes (ArqDate × List Nat) :=
  PRes.bind (readBytes 1 s) fun p =>
    if p.1 = [1] then
      PRes.bind (readU64 p.2) fun q => .ok (⟨q.1⟩, q.2)
    else .ok (⟨0⟩, p.2)

/-- `CompressionType` (src/compression.rs). -/
inductive CompressionType where
  | none
  | gzip
  | lz4
  deriving DecidableEq, Repr

/-- `CompressionType::new` (src/compression.rs lines 13-22): reads an i32
tag; 0, 1, 2 decode to None, Gzip, LZ4; any other tag hits the
`panic!("Compression type ... unknown")` arm. -/
def CompressionType.new (s : List Nat) : PRes (CompressionType × List Nat) :=
  PRes.bind (readI32 s) fun p =>
    if p.1 = 0 then .ok (.none, p.2)
    else if p.1 = 1 then .ok (.gzip, p.2)
    else if p.1 = 2 then .ok (.lz4, p.2)
    else .fatal

/-- `ArqCompressionType` (src/type_utils.rs). -/
inductive ArqCompressionType where
  | none
  | gzip
  | lz4
  deriving DecidableEq, Repr

/-- `ArqCompressionType::new` (src/type_utils.rs lines 86-97): same tag
decoding as `CompressionType::new`, with the same panic arm. -/
def ArqCompressionType.new (s : List Nat) : PRes (ArqCompressionType × List Nat) :=
  PRes.bind (readI32 s) fun p =>
    if p.1 = 0 then .ok (.none, p.2)
    else if p.1 = 1 then .ok (.gzip, p.2)
    else if p.1 = 2 then .ok (.lz4, p.2)
    else .fatal

/-- `read_arq_compression_type` delegates to `ArqCompressionType::new`. -/
def read_arq_compression_type (s : List Nat) : PRes (ArqCompressionType × List Nat) :=
  ArqCompressionType.new s

/-- `CompressionType::decompress` (src/compression.rs lines 24-30): LZ4
delegates to the lz4 module (passed in as `lz4dec`; the delegate named in
the source is absent from this snapshot of the crate), Gzip is
`unimplemented!()` (a panic), None copies the input. -/
def CompressionType.decompress (lz4dec : List Nat → PRes (List Nat))
    (compressed : List Nat) : CompressionType → PRes (List Nat)
  | .lz4 => lz4dec compressed
  | .gzip => .fatal
  | .none => .ok compressed

/-- C7: the claim reads "tag 0 decodes to None, tag 1 to Gzip, tag 2 to LZ4,
and any other tag value yields an error of kind ParseError". At tag 3 both
`CompressionType::new` and `ArqCompressionType::new` panic instead of
returning `ParseError`: the wildcard match arm is an explicit `panic!`. -/
theorem compression_tag_three_panics :
    CompressionType.new [0, 0, 0, 3] = .fatal ∧
    ArqCompressionType.new [0, 0, 0, 3] = .fatal ∧
    (PRes.fatal : PRes (CompressionType × List Nat)) ≠ .err .parseError := by
  refine ⟨by decide, by decide, by decide⟩

/-- C7 amended: tags 0, 1, 2 decode to None, Gzip, LZ4; any other i32 tag
makes both `CompressionType::new` and `ArqCompressionType::new` panic (the
`panic!` arm), rather than return a `ParseError`. -/
theorem compression_tag_decoding (s : List Nat) (c : Int) (rest : List Nat)
    (h : readI32 s = .ok (c, rest)) :
    (c = 0 → CompressionType.new s = .ok (.none, rest) ∧
       ArqCompressionType.new s = .ok (.none, rest)) ∧
    (c = 1 → CompressionType.new s = .ok (.gzip, rest) ∧
       ArqCompressionType.new s = .ok (.gzip, rest)) ∧
    (c = 2 → CompressionType.new s = .ok (.lz4, rest) ∧
       ArqCompressionType.new s = .ok (.lz4, rest)) ∧
    (c ≠ 0 → c ≠ 1 → c ≠ 2 → CompressionType.new s = .fatal ∧
       ArqCompressionType.new s = .fatal) := by
  refine ⟨?_, ?_, ?_, ?_⟩
  · rintro rfl
    constructor <;> simp [CompressionType.new, ArqCompressionType.new, h, PRes.bind]
  · rintro rfl
    constructor <;> simp [CompressionType.new, ArqCompressionType.new, h, PRes.bind]
  · rintro rfl
    constructor <;> simp [CompressionType.new, ArqCompressionType.new, h, PRes.bind]
  · intro h0 h1 h2
    constructor <;> simp [CompressionType.new, ArqCompressionType.new, h, PRes.bind, h0, h1, h2]

/-- C7 amended witness: the decoding theorem applied at the concrete tag 9
(and, through its first clause, at tag 0 on the stream `00 00 00 00`). -/
theorem compression_tag_decoding_at_nine :
    CompressionType.new [0, 0, 0, 9] = .fatal ∧
    ArqCompressionType.new [0, 0, 0, 9] = .fatal :=
  (compression_tag_decoding [0, 0, 0, 9] 9 [] (by decide)).2.2.2
    (by decide) (by decide) (by decide)

/-- PKCS#7 unpadding as `block_padding::Pkcs7` performs it on a decrypted
buffer: the last byte `p` must satisfy `1 ≤ p ≤ 16` and the last `p` bytes
must all equal `p`; those bytes are removed. Anything else is an
`UnpadError`. -/
def pkcs7Unpad (raw : List Nat) : Option (List Nat) :=
  match raw.getLast? with
  | Option.none => Option.none
  | some p =>
    if 1 ≤ p ∧ p ≤ 16 ∧ p ≤ raw.length ∧ (raw.drop (raw.length - p)).all (fun x => x == p)
    then some (raw.take (raw.length - p)) else Option.none

/-- `Aes256CbcDec::decrypt_padded_mut::<Pkcs7>`: the ciphertext must be a
non-empty whole number of 16-byte blocks; the raw block decryption (the
external cipher, passed as `aes`) preserves length; then PKCS#7 unpadding.
`none` is the `UnpadError` (converted to `CipherError` by the crate). -/
def decryptPadded (aes : List Nat → List Nat → List Nat → List Nat)
    (key iv data : List Nat) : Option (List Nat) :=
  if data.length % 16 = 0 ∧ data.length ≠ 0 then pkcs7Unpad (aes key iv data)
  else Option.none

/-- `EncryptedObject` (src/object_encryption.rs lines 220-225). -/
structure EncryptedObject where
  hmac_sha256 : List Nat
  master_iv : List Nat
  encrypted_data_iv_session : List Nat
  ciphertext : List Nat
  deriving DecidableEq, Repr

/-- `EncryptedObject::new` (src/object_encryption.rs lines 228-243): ARQO
magic (a failed `assert_eq!` is a panic), then 32-byte HMAC, 16-byte master
IV, 64-byte encrypted data-IV-plus-session-key, and `read_to_end` for the
ciphertext, which consumes the whole remaining stream. -/
def EncryptedObject.new (s : List Nat) : PRes EncryptedObject :=
  PRes.bind (readBytes 4 s) fun h =>
    if h.1 = [65, 82, 81, 79] then
      PRes.bind (readBytes 32 h.2) fun hm =>
        PRes.bind (readBytes 16 hm.2) fun iv =>
          PRes.bind (readBytes 64 iv.2) fun ek =>
            .ok ⟨hm.1, iv.1, ek.1, ek.2⟩
    else .fatal

/-- `EncryptedObject::validate` (src/object_encryption.rs lines 245-252):
HMAC-SHA256 over (master IV ‖ encrypted data-IV-plus-session-key ‖
ciphertext) compared against the stored HMAC by `assert_eq!`, which panics
on mismatch. `Hmac::<Sha256>::new_from_slice` accepts keys of any length,
so the `?` on `calculate_hmacsha256` never fires. -/
def EncryptedObject.validate (hmacSha256 : List Nat → List Nat → List Nat)
    (o : EncryptedObject) (masterKey : List Nat) : PRes Unit :=
  if hmacSha256 masterKey (o.master_iv ++ o.encrypted_data_iv_session ++ o.ciphertext)
      = o.hmac_sha256
  then .ok () else .fatal

/-- `EncryptedObject::decrypt` (src/object_encryption.rs lines 254-267):
`new_from_slices` rejects keys not of 32 bytes and IVs not of 16 bytes with
`InvalidLength` (a `CryptoError`); the 64-byte field is decrypted and
unpadded; bytes 0..16 and 16..48 of the result are taken by Rust slicing,
which panics when out of range; then the main ciphertext is decrypted with
the session key and data IV. -/
def EncryptedObject.decrypt (aes : List Nat → List Nat → List Nat → List Nat)
    (o : EncryptedObject) (masterKey : List Nat) : PRes (List Nat) :=
  if masterKey.length = 32 ∧ o.master_iv.length = 16 then
    match decryptPadded aes masterKey o.master_iv o.encrypted_data_iv_session with
    | Option.none => .err .cipherError
    | some u =>
      if 48 ≤ u.length then
        if ((u.drop 16).take 32).length = 32 ∧ (u.take 16).length = 16 then
          match decryptPadded aes ((u.drop 16).take 32) (u.take 16) o.ciphertext with
          | Option.none => .err .cipherError
          | some content => .ok content
        else .err .cryptoError
      else .fatal
  else .err .cryptoError

/-- An HMAC-SHA256 stand-in used to evaluate the model at concrete inputs:
it returns 32 zero bytes for every key and message. -/
def demoHmac (_key _message : List Nat) : List Nat := List.replicate 32 0

/-- An AES-256-CBC block-decryption stand-in used to evaluate the model at
concrete inputs: it returns the buffer unchanged (length-preserving, as the
real block cipher is). -/
def demoAes (_key _iv data : List Nat) : List Nat := data

/-- A 32-byte all-zero master key used in concrete evaluations. -/
def key32 : List Nat := List.replicate 32 0

/-- An `EncryptedObject` whose stored HMAC (32 bytes of 9) differs from the
HMAC `demoHmac` computes (32 bytes of 0). -/
def demoObjC2 : EncryptedObject :=
  ⟨List.replicate 32 9, List.replicate 16 0, List.replicate 64 0, []⟩

/-- C2: the claim reads that on an HMAC mismatch `EncryptedObject::validate`
"fails with the error kind CryptoError". On this concrete object, whose
stored HMAC differs from the computed one, `validate` panics (the
`assert_eq!` fails); it does not return `CryptoError`. -/
theorem validate_mismatch_is_panic :
    EncryptedObject.validate demoHmac demoObjC2 key32 = .fatal ∧
    EncryptedObject.validate demoHmac demoObjC2 key32 ≠ .err Err.cryptoError := by
  refine ⟨by decide, by decide⟩

/-- C2 amended: when the computed HMAC-SHA256 over (master IV ‖ encrypted
data-IV-plus-session-key ‖ ciphertext) differs from the stored HMAC,
`EncryptedObject::validate` panics on its `assert_eq!` — so no plaintext is
produced — and in particular it does not return an `Err` of any kind. -/
theorem validate_hmac_mismatch (hmacSha256 : List Nat → List Nat → List Nat)
    (o : EncryptedObject) (key : List Nat)
    (h : hmacSha256 key (o.master_iv ++ o.encrypted_data_iv_session ++ o.ciphertext)
      ≠ o.hmac_sha256) :
    EncryptedObject.validate hmacSha256 o key = .fatal ∧
    ∀ e : Err, EncryptedObject.validate hmacSha256 o key ≠ .err e := by
  unfold EncryptedObject.validate
  rw [if_neg h]
  exact ⟨rfl, fun e => by simp⟩

/-- An `EncryptedObject` with a mismatched stored HMAC (32 bytes of 7),
used to witness `validate_hmac_mismatch` at a concrete input. -/
def demoObjC2W : EncryptedObject :=
  ⟨List.replicate 32 7, List.replicate 16 0, List.replicate 64 0, []⟩

/-- C2 amended witness: the mismatch theorem applied at a concrete object. -/
theorem validate_hmac_mismatch_at_demo :
    EncryptedObject.validate demoHmac demoObjC2W key32 = .fatal :=
  (validate_hmac_mismatch demoHmac demoObjC2W key32 (by decide)).1

theorem pkcs7Unpad_length (raw u : List Nat) (h : pkcs7Unpad raw = some u) :
    raw.length - 16 ≤ u.length := by
  unfold pkcs7Unpad at h
  split at h
  · exact absurd h (by simp)
  · rename_i p hg
    split at h
    · rename_i hc
      obtain ⟨h1, h2, h3, h4⟩ := hc
      simp at h
      subst h
      rw [List.length_take]
      omega
    · simp at h

theorem decryptPadded_length (aes : List Nat → List Nat → List Nat → List Nat)
    (k iv d u : List Nat) (haes : ∀ k2 iv2 d2, (aes k2 iv2 d2).length = d2.length)
    (h : decryptPadded aes k iv d = some u) : d.length - 16 ≤ u.length := by
  unfold decryptPadded at h
  by_cases hc : d.length % 16 = 0 ∧ d.length ≠ 0
  · rw [if_pos hc] at h
    have := pkcs7Unpad_length (aes k iv d) u h
    rw [haes] at this
    exact this
  · rw [if_neg hc] at h
    simp at h

theorem encryptedObject_new_field_lengths (input : List Nat) (o : EncryptedObject)
    (h : EncryptedObject.new input = .ok o) :
    o.hmac_sha256.length = 32 ∧ o.master_iv.length = 16 ∧
      o.encrypted_data_iv_session.length = 64 := by
  unfold EncryptedObject.new at h
  obtain ⟨p1, hr1, h⟩ := PRes.bind_eq_ok _ _ _ h
  by_cases hm : p1.1 = [65, 82, 81, 79]
  · rw [if_pos hm] at h
    obtain ⟨p2, hr2, h⟩ := PRes.bind_eq_ok _ _ _ h
    obtain ⟨p3, hr3, h⟩ := PRes.bind_eq_ok _ _ _ h
    obtain ⟨p4, hr4, h⟩ := PRes.bind_eq_ok _ _ _ h
    obtain ⟨hl2, _⟩ := readBytes_ok _ _ _ _ (by rw [← hr2])
    obtain ⟨hl3, _⟩ := readBytes_ok _ _ _ _ (by rw [← hr3])
    obtain ⟨hl4, _⟩ := readBytes_ok _ _ _ _ (by rw [← hr4])
    cases h
    exact ⟨hl2, hl3, hl4⟩
  · rw [if_neg hm] at h
    simp at h

/-- C10 amended: for every `EncryptedObject` produced by
`EncryptedObject::new` (whose encrypted data-IV-plus-session-key field is
exactly 64 bytes) and every length-preserving block decryption, `decrypt`
never panics: a valid PKCS#7 unpad of a 64-byte buffer removes at most 16
bytes, so the unpadded result has at least 48 bytes and the slices 0..16
and 16..48 are always in bounds. The claimed under-48-byte case cannot
arise. -/
theorem decrypt_never_panics (aes : List Nat → List Nat → List Nat → List Nat)
    (key input : List Nat) (o : EncryptedObject)
    (haes : ∀ k2 iv2 d2, (aes k2 iv2 d2).length = d2.length)
    (hnew : EncryptedObject.new input = .ok o) :
    EncryptedObject.decrypt aes o key ≠ .fatal := by
  obtain ⟨_, hiv, hfield⟩ := encryptedObject_new_field_lengths input o hnew
  unfold EncryptedObject.decrypt
  split
  · split
    · simp
    · rename_i u hd
      have hu : 48 ≤ u.length := by
        have := decryptPadded_length aes key o.master_iv _ u haes hd
        rw [hfield] at this
        omega
      have hsk : ((u.drop 16).take 32).length = 32 ∧ (u.take 16).length = 16 := by
        constructor <;> simp <;> omega
      rw [if_pos hu, if_pos hsk]
      split
      · simp
      · simp
  · simp

/-- The bytes of an ARQO object whose 64-byte field carries maximal (16-byte)
PKCS#7 padding under `demoAes`, the extremal case for the unpadded length. -/
def demoArqoBytes : List Nat :=
  [65, 82, 81, 79] ++ List.replicate 32 0 ++ List.replicate 16 0 ++
    (List.replicate 48 0 ++ List.replicate 16 16) ++ List.replicate 16 16

/-- The object `EncryptedObject::new` yields on `demoArqoBytes`. -/
def demoObj10 : EncryptedObject :=
  ⟨List.replicate 32 0, List.replicate 16 0,
    List.replicate 48 0 ++ List.replicate 16 16, List.replicate 16 16⟩

/-- C10: the claim asserts a panic for objects whose 64-byte field unpads to
fewer than 48 bytes; no such object exists. At the extremal concrete input
— maximal padding of 16 bytes, so the unpadded field is exactly 48 bytes —
`decrypt` succeeds, and the unpadded length is 48, never below it. -/
theorem decrypt_min_unpad_48_ok :
    EncryptedObject.decrypt demoAes demoObj10 key32 = .ok [] ∧
    (decryptPadded demoAes key32 (List.replicate 16 0)
      demoObj10.encrypted_data_iv_session).map List.length = some 48 := by
  refine ⟨by decide, by decide⟩

/-- C10 amended witness: `decrypt_never_panics` applied to the concrete
object parsed from `demoArqoBytes` with the identity block decryption. -/
theorem decrypt_never_panics_at_demo :
    EncryptedObject.decrypt demoAes demoObj10 key32 ≠ .fatal :=
  decrypt_never_panics demoAes key32 demoArqoBytes demoObj10
    (fun _ _ _ => rfl) (by decide)

theorem readBytes_append' (n : Nat) (a r : List Nat) (ha : a.length = n) :
    readBytes n (a ++ r) = .ok (a, r) := ha ▸ readBytes_append a r

/-- The 12-byte magic ASCII `ENCRYPTIONV2` of an encryptionv3.dat file. -/
def encryptionMagic : List Nat := [69, 78, 67, 82, 89, 80, 84, 73, 79, 78, 86, 50]

/-- `EncryptionDat` (src/object_encryption.rs lines 119-125). -/
structure EncryptionDat where
  salt : List Nat
  hmac_sha256 : List Nat
  iv : List Nat
  encryption_key : List Nat
  master_keys : List (List Nat)
  deriving DecidableEq, Repr

/-- `EncryptionDat::derive_encryption_key`: PBKDF2-HMAC-SHA1 with 200,000
iterations filling a 64-byte buffer. The external derivation is `pbkdf2`;
the buffer shape forces the 64-byte length. -/
def derivedKey (pbkdf2 : List Nat → List Nat → List Nat)
    (password salt : List Nat) : List Nat :=
  (pbkdf2 password salt ++ List.replicate 64 0).take 64

/-- `EncryptionDat::parse_master_keys`: the 96 decrypted bytes split into
three 32-byte master keys by slicing, which panics when fewer than 96
bytes are present. -/
def EncryptionDat.parse_master_keys (mkeys : List Nat) : PRes (List (List Nat)) :=
  if 96 ≤ mkeys.length then
    .ok [mkeys.take 32, (mkeys.drop 32).take 32, (mkeys.drop 64).take 32]
  else .fatal

/-- `EncryptionDat::new` (src/object_encryption.rs lines 150-177): magic (a
failed `assert_eq!` panics), salt (8), stored HMAC (32), IV (16), encrypted
master keys (112); derive the 64-byte key; compare the HMAC-SHA256 of
(iv ‖ encrypted keys) under the upper 32 key bytes against the stored HMAC
— mismatch returns `WrongPassword` before any cipher call; then AES-256-CBC
decrypt with the lower 32 key bytes (`new_from_slices` rejects wrong key/IV
lengths as `CryptoError`; unpadding failure is `CipherError`). -/
def EncryptionDat.new (pbkdf2 hmacSha256 : List Nat → List Nat → List Nat)
    (aes : List Nat → List Nat → List Nat → List Nat)
    (input password : List Nat) : PRes EncryptionDat :=
  PRes.bind (readBytes 12 input) fun hd =>
    if hd.1 = encryptionMagic then
      PRes.bind (readBytes 8 hd.2) fun salt =>
        PRes.bind (readBytes 32 salt.2) fun hm =>
          PRes.bind (readBytes 16 hm.2) fun iv =>
            PRes.bind (readBytes 112 iv.2) fun enc =>
              if hmacSha256 ((derivedKey pbkdf2 password salt.1).drop 32)
                  (iv.1 ++ enc.1) = hm.1 then
                if ((derivedKey pbkdf2 password salt.1).take 32).length = 32 ∧
                    iv.1.length = 16 then
                  match decryptPadded aes ((derivedKey pbkdf2 password salt.1).take 32)
                      iv.1 enc.1 with
                  | Option.none => .err .cipherError
                  | some mkeys =>
                    PRes.bind (EncryptionDat.parse_master_keys mkeys) fun keys =>
                      .ok ⟨salt.1, hm.1, iv.1, derivedKey pbkdf2 password salt.1, keys⟩
                else .err .cryptoError
              else .err .wrongPassword
    else .fatal

/-- C3: for every encryptionv3.dat stream (its magic in place and its five
fixed-size fields present) and every password for which the HMAC-SHA256 of
(iv ‖ encrypted master keys) under the upper 32 bytes of the derived key
differs from the stored HMAC, `EncryptionDat::new` returns `WrongPassword`
— and therefore never `CipherError`: the comparison precedes every cipher
call. -/
theorem encryption_dat_wrong_password
    (pbkdf2 hmacSha256 : List Nat → List Nat → List Nat)
    (aes : List Nat → List Nat → List Nat → List Nat)
    (saltB hmacB ivB encB rest password : List Nat)
    (hs : saltB.length = 8) (hh : hmacB.length = 32)
    (hi : ivB.length = 16) (he : encB.length = 112)
    (hmis : hmacSha256 ((derivedKey pbkdf2 password saltB).drop 32) (ivB ++ encB) ≠ hmacB) :
    EncryptionDat.new pbkdf2 hmacSha256 aes
        (encryptionMagic ++ (saltB ++ (hmacB ++ (ivB ++ (encB ++ rest))))) password
      = .err .wrongPassword ∧
    EncryptionDat.new pbkdf2 hmacSha256 aes
        (encryptionMagic ++ (saltB ++ (hmacB ++ (ivB ++ (encB ++ rest))))) password
      ≠ .err .cipherError := by
  have e1 : readBytes 12 (encryptionMagic ++ (saltB ++ (hmacB ++ (ivB ++ (encB ++ rest)))))
      = .ok (encryptionMagic, saltB ++ (hmacB ++ (ivB ++ (encB ++ rest)))) :=
    readBytes_append' _ _ _ rfl
  have e2 : readBytes 8 (saltB ++ (hmacB ++ (ivB ++ (encB ++ rest))))
      = .ok (saltB, hmacB ++ (ivB ++ (encB ++ rest))) := readBytes_append' _ _ _ hs
  have e3 : readBytes 32 (hmacB ++ (ivB ++ (encB ++ rest)))
      = .ok (hmacB, ivB ++ (encB ++ rest)) := readBytes_append' _ _ _ hh
  have e4 : readBytes 16 (ivB ++ (encB ++ rest)) = .ok (ivB, encB ++ rest) :=
    readBytes_append' _ _ _ hi
  have e5 : readBytes 112 (encB ++ rest) = .ok (encB, rest) := readBytes_append' _ _ _ he
  have hmain : EncryptionDat.new pbkdf2 hmacSha256 aes
      (encryptionMagic ++ (saltB ++ (hmacB ++ (ivB ++ (encB ++ rest))))) password
      = .err .wrongPassword := by
    simp [EncryptionDat.new, e1, e2, e3, e4, e5, PRes.bind, hmis]
  exact ⟨hmain, by rw [hmain]; simp⟩

/-- A PBKDF2 stand-in used to evaluate the model at a concrete input: it
returns 64 zero bytes for every password and salt. -/
def demoPbkdf (_password _salt : List Nat) : List Nat := List.replicate 64 0

/-- A concrete encryptionv3.dat stream whose stored HMAC (32 bytes of 1)
differs from the HMAC `demoHmac` computes (32 bytes of 0). -/
def demoEncDatBytes : List Nat :=
  encryptionMagic ++ (List.replicate 8 0 ++ (List.replicate 32 1 ++
    (List.replicate 16 0 ++ (List.replicate 112 0 ++ []))))

/-- C3 witness: the wrong-password theorem applied at the concrete stream
`demoEncDatBytes` and the password `evu`. -/
theorem encryption_dat_wrong_password_at_demo :
    EncryptionDat.new demoPbkdf demoHmac demoAes demoEncDatBytes [101, 118, 117]
      = .err .wrongPassword :=
  (encryption_dat_wrong_password demoPbkdf demoHmac demoAes
    (List.replicate 8 0) (List.replicate 32 1) (List.replicate 16 0)
    (List.replicate 112 0) [] [101, 118, 117]
    (by decide) (by decide) (by decide) (by decide) (by decide)).1

/-- One hexadecimal digit as its lowercase ASCII code. -/
def hexDigit (n : Nat) : Nat := if n < 10 then 48 + n else 87 + n

/-- `convert_to_hex_string` (src/utils.rs): each byte formatted `{:02x}`,
modelled for byte values below 256. The hex string is its ASCII byte list. -/
def convert_to_hex_string (a : List Nat) : List Nat :=
  a.flatMap fun b => [hexDigit (b / 16), hexDigit (b % 16)]

/-- `PackIndexObject` (src/packset.rs lines 205-209). -/
structure PackIndexObject where
  offset : Nat
  data_len : Nat
  sha1 : List Nat
  deriving DecidableEq, Repr

/-- `PackIndexObject::new` (src/packset.rs lines 308-321): u64 offset, u64
data length, 20 bytes of SHA-1 (kept as a hex string), 4 alignment bytes. -/
def PackIndexObject.new (s : List Nat) : PRes (PackIndexObject × List Nat) :=
  PRes.bind (readU64 s) fun o =>
    PRes.bind (readU64 o.2) fun d =>
      PRes.bind (readBytes 20 d.2) fun sh =>
        PRes.bind (readBytes 4 sh.2) fun pad =>
          .ok (⟨o.1, d.1, convert_to_hex_string sh.1⟩, pad.2)

/-- The `while object_count > 0` loop of `PackIndex::new`: reads exactly
`n` object records. -/
def parsePackIndexObjects : Nat → List Nat → PRes (List PackIndexObject × List Nat)
  | 0, s => .ok ([], s)
  | n + 1, s =>
    PRes.bind (PackIndexObject.new s) fun p =>
      PRes.bind (parsePackIndexObjects n p.2) fun q => .ok (p.1 :: q.1, q.2)

/-- `PackObject` (src/packset.rs lines 107-111). -/
structure PackObject where
  mimetype : List Nat
  name : List Nat
  data : EncryptedObject
  deriving DecidableEq, Repr

/-- `PackObject::new` (src/packset.rs lines 324-347): optional mimetype and
name (presence byte then string), then `read_arq_data`, whose body is
parsed as an `EncryptedObject` through a fresh cursor. -/
def PackObject.new (s : List Nat) : PRes (PackObject × List Nat) :=
  PRes.bind (read_arq_bool s) fun mp =>
    PRes.bind (if mp.1 then read_arq_string mp.2 else .ok ([], mp.2)) fun mt =>
      PRes.bind (read_arq_bool mt.2) fun np =>
        PRes.bind (if np.1 then read_arq_string np.2 else .ok ([], np.2)) fun nm =>
          PRes.bind (read_arq_data nm.2) fun dt =>
            PRes.bind (EncryptedObject.new dt.1) fun obj =>
              .ok (⟨mt.1, nm.1, obj⟩, dt.2)

/-- The `while object_count > 0` loop of `Pack::new`. -/
def parsePackObjects : Nat → List Nat → PRes (List PackObject × List Nat)
  | 0, s => .ok ([], s)
  | n + 1, s =>
    PRes.bind (PackObject.new s) fun p =>
      PRes.bind (parsePackObjects n p.2) fun q => .ok (p.1 :: q.1, q.2)

/-- The trailing-SHA-1 self-check shared by `Pack::new` and
`PackIndex::new` (src/packset.rs lines 260-267 and 292-299): seek to the
end, re-read every byte but the last 20 as `content`, read the stored
20-byte trailer, and `assert_eq!` it against `sha1(content)` — a mismatch
panics. A file shorter than 20 bytes makes the `u64` subtraction
`seek(End) - 20` misbehave (panic in debug builds), modelled as a panic. -/
def checksumCheck {α : Type} (sha1 : List Nat → List Nat) (input : List Nat)
    (v : α) : PRes α :=
  if input.length < 20 then .fatal
  else if sha1 (input.take (input.length - 20)) = input.drop (input.length - 20)
  then .ok v else .fatal

/-- `Pack` (src/packset.rs lines 80-83). -/
structure Pack where
  version : List Nat
  objects : List PackObject
  deriving DecidableEq, Repr

/-- The sequential phase of `Pack::new` (src/packset.rs lines 281-290):
PACK magic (a failed `assert_eq!` panics), 4 version bytes, u64 object
count, then that many objects. -/
def Pack.parseBody (input : List Nat) : PRes Pack :=
  PRes.bind (readBytes 4 input) fun sig =>
    if sig.1 = [80, 65, 67, 75] then
      PRes.bind (readBytes 4 sig.2) fun ver =>
        PRes.bind (readU64 ver.2) fun cnt =>
          PRes.bind (parsePackObjects cnt.1 cnt.2) fun objs =>
            .ok ⟨ver.1, objs.1⟩
    else .fatal

/-- `Pack::new` (src/packset.rs lines 281-306): the sequential phase
followed by the trailing-SHA-1 self-check over the whole file. -/
def Pack.new (sha1 : List Nat → List Nat) (input : List Nat) : PRes Pack :=
  PRes.bind (Pack.parseBody input) (checksumCheck sha1 input)

/-- `PackIndex` (src/packset.rs lines 176-185). -/
structure PackIndex where
  version : List Nat
  fanout : List (List Nat)
  objects : List PackIndexObject
  glacier_archive_id_present : Bool
  glacier_archive_id : List Nat
  glacier_pack_size : Nat
  deriving DecidableEq, Repr

/-- The `while fanout.len() < 256` loop of `PackIndex::new`: 256 four-byte
entries. -/
def parseFanout : Nat → List Nat → PRes (List (List Nat) × List Nat)
  | 0, s => .ok ([], s)
  | n + 1, s =>
    PRes.bind (readBytes 4 s) fun e =>
      PRes.bind (parseFanout n e.2) fun q => .ok (e.1 :: q.1, q.2)

/-- The Glacier-tail detection of `PackIndex::new` (src/packset.rs lines
234-258), exactly as the source performs it: try to read 21 bytes; only
when that succeeds, read one further byte as the archive-id flag, and when
that byte is 0x01 read the u64 string length, the archive id, and the u64
pack size. A failed 21-byte `read_exact` skips the whole block (the
stream position no longer matters: the caller seeks before using it). -/
def glacierProbe (s : List Nat) : PRes (Bool × List Nat × Nat) :=
  match splitN 21 s with
  | Option.none => .ok (false, [], 0)
  | some p =>
    PRes.bind (readBytes 1 p.2) fun fl =>
      if fl.1 = [1] then
        PRes.bind (readU64 fl.2) fun ln =>
          PRes.bind (readBytes ln.1 ln.2) fun aid =>
            PRes.bind (readU64 aid.2) fun sz => .ok (true, aid.1, sz.1)
      else .ok (false, [], 0)

/-- The sequential phase of `PackIndex::new` (src/packset.rs lines 212-258):
magic `ff 74 4f 63` (a failed `assert_eq!` panics), 4 version bytes, 256
fan-out entries, the object count taken by a cursor u32 read of
`fanout[255]` (256 entries exist whenever the loop succeeded), that many
object records, then the Glacier probe. -/
def PackIndex.parseBody (input : List Nat) : PRes PackIndex :=
  PRes.bind (readBytes 4 input) fun mg =>
    if mg.1 = [255, 116, 79, 99] then
      PRes.bind (readBytes 4 mg.2) fun ver =>
        PRes.bind (parseFanout 256 ver.2) fun fo =>
          PRes.bind (readU32 (fo.1.getD 255 [])) fun cnt =>
            PRes.bind (parsePackIndexObjects cnt.1 fo.2) fun objs =>
              PRes.bind (glacierProbe objs.2) fun g =>
                .ok ⟨ver.1, fo.1, objs.1, g.1, g.2.1, g.2.2⟩
    else .fatal

/-- `PackIndex::new` (src/packset.rs lines 212-277): the sequential phase
followed by the trailing-SHA-1 self-check over the whole file. -/
def PackIndex.new (sha1 : List Nat → List Nat) (input : List Nat) : PRes PackIndex :=
  PRes.bind (PackIndex.parseBody input) (checksumCheck sha1 input)

theorem PRes.ok_bind {α β : Type} (a : α) (f : α → PRes β) :
    PRes.bind (.ok a) f = f a := rfl

theorem checksumCheck_ok {α : Type} (sha1 : List Nat → List Nat) (input : List Nat)
    (v w : α) (h : checksumCheck sha1 input v = .ok w) :
    w = v ∧ 20 ≤ input.length ∧
      sha1 (input.take (input.length - 20)) = input.drop (input.length - 20) := by
  unfold checksumCheck at h
  split at h
  · simp at h
  · rename_i hl
    split at h
    · rename_i hc
      simp at h
      exact ⟨h.symm, by omega, hc⟩
    · simp at h

theorem checksumCheck_accept {α : Type} (sha1 : List Nat → List Nat) (input : List Nat)
    (v : α) (h20 : 20 ≤ input.length)
    (hc : sha1 (input.take (input.length - 20)) = input.drop (input.length - 20)) :
    checksumCheck sha1 input v = .ok v := by
  unfold checksumCheck
  rw [if_neg (by omega), if_pos hc]

theorem checksum_reject {α : Type} (body : List Nat → PRes α)
    (sha1 : List Nat → List Nat) (B : List Nat) (i v : Nat) (p q : α)
    (hok : PRes.bind (body B) (checksumCheck sha1 B) = .ok p)
    (hi : i < B.length - 20)
    (hne : sha1 ((B.set i v).take (B.length - 20)) ≠ sha1 (B.take (B.length - 20))) :
    PRes.bind (body (B.set i v)) (checksumCheck sha1 (B.set i v)) ≠ .ok q := by
  intro hq
  obtain ⟨a, _, hc⟩ := PRes.bind_eq_ok _ _ _ hok
  obtain ⟨_, h20, hsha⟩ := checksumCheck_ok _ _ _ _ hc
  obtain ⟨a2, _, hc2⟩ := PRes.bind_eq_ok _ _ _ hq
  obtain ⟨_, _, hsha2⟩ := checksumCheck_ok _ _ _ _ hc2
  have hlen : (B.set i v).length = B.length := by simp
  rw [hlen] at hsha2
  have hdrop : (B.set i v).drop (B.length - 20) = B.drop (B.length - 20) := by
    rw [List.drop_set]
    simp [hi]
  rw [hdrop] at hsha2
  exact hne (hsha2.trans hsha.symm)

/-- C4: accepting and rejecting on the trailing 20-byte SHA-1, for both
`Pack::new` and `PackIndex::new`. A byte vector whose sequential phase
parses and whose trailing 20 bytes equal the SHA-1 of everything before
them is accepted; changing any single byte of the content before the
trailer (so that the content's SHA-1 changes — the hash function is a
parameter, and a one-byte change keeps the stored trailer intact) makes the
parser reject: rejection is the panic of the trailer `assert_eq!`, never a
silently returned value. -/
theorem pack_index_sha1_self_check :
    (∀ (sha1 : List Nat → List Nat) (B : List Nat) (p : Pack),
      Pack.parseBody B = .ok p → 20 ≤ B.length →
      sha1 (B.take (B.length - 20)) = B.drop (B.length - 20) →
      Pack.new sha1 B = .ok p) ∧
    (∀ (sha1 : List Nat → List Nat) (B : List Nat) (i v : Nat) (p q : Pack),
      Pack.new sha1 B = .ok p → i < B.length - 20 →
      sha1 ((B.set i v).take (B.length - 20)) ≠ sha1 (B.take (B.length - 20)) →
      Pack.new sha1 (B.set i v) ≠ .ok q) ∧
    (∀ (sha1 : List Nat → List Nat) (B : List Nat) (p : PackIndex),
      PackIndex.parseBody B = .ok p → 20 ≤ B.length →
      sha1 (B.take (B.length - 20)) = B.drop (B.length - 20) →
      PackIndex.new sha1 B = .ok p) ∧
    (∀ (sha1 : List Nat → List Nat) (B : List Nat) (i v : Nat) (p q : PackIndex),
      PackIndex.new sha1 B = .ok p → i < B.length - 20 →
      sha1 ((B.set i v).take (B.length - 20)) ≠ sha1 (B.take (B.length - 20)) →
      PackIndex.new sha1 (B.set i v) ≠ .ok q) := by
  refine ⟨?_, ?_, ?_, ?_⟩
  · intro sha1 B p hb h20 hc
    unfold Pack.new
    rw [hb, PRes.ok_bind]
    exact checksumCheck_accept sha1 B p h20 hc
  · intro sha1 B i v p q hok hi hne
    exact checksum_reject Pack.parseBody sha1 B i v p q hok hi hne
  · intro sha1 B p hb h20 hc
    unfold PackIndex.new
    rw [hb, PRes.ok_bind]
    exact checksumCheck_accept sha1 B p h20 hc
  · intro sha1 B i v p q hok hi hne
    exact checksum_reject PackIndex.parseBody sha1 B i v p q hok hi hne

/-- A SHA-1 stand-in used to evaluate the model at concrete inputs: 20
bytes whose first is the byte sum modulo 256, so that changing one byte
(by less than 256) changes the digest. -/
def demoSha1 (l : List Nat) : List Nat := l.sum % 256 :: List.replicate 19 0

/-- Content of a minimal pack: magic, version 2, zero objects. -/
def minPackContent : List Nat := [80, 65, 67, 75] ++ [0, 0, 0, 2] ++ List.replicate 8 0

/-- The minimal pack with its correct trailing digest. -/
def minPackBytes : List Nat := minPackContent ++ demoSha1 minPackContent

/-- Content of a minimal pack index: magic, version 2, 256 zero fan-out
entries (so zero objects), no Glacier tail. -/
def minIdxContent : List Nat := [255, 116, 79, 99] ++ [0, 0, 0, 2] ++ List.replicate 1024 0

/-- The minimal pack index with its correct trailing digest. -/
def minIdxBytes : List Nat := minIdxContent ++ demoSha1 minIdxContent

/-- The parsed form of `minIdxBytes`. -/
def minIdxVal : PackIndex :=
  ⟨[0, 0, 0, 2], List.replicate 256 [0, 0, 0, 0], [], false, [], 0⟩

/-- C4 witness: the self-check theorem applied at concrete files — the
minimal pack and index are accepted, and corrupting one content byte of
either makes its parser reject. -/
theorem pack_index_sha1_self_check_at_demo :
    Pack.new demoSha1 minPackBytes = .ok ⟨[0, 0, 0, 2], []⟩ ∧
    (∀ q, Pack.new demoSha1 (minPackBytes.set 4 9) ≠ .ok q) ∧
    PackIndex.new demoSha1 minIdxBytes = .ok minIdxVal ∧
    (∀ q, PackIndex.new demoSha1 (minIdxBytes.set 8 7) ≠ .ok q) := by
  refine ⟨?_, ?_, ?_, ?_⟩
  · exact pack_index_sha1_self_check.1 demoSha1 minPackBytes ⟨[0, 0, 0, 2], []⟩
      (by decide) (by decide) (by decide)
  · intro q
    exact pack_index_sha1_self_check.2.1 demoSha1 minPackBytes 4 9 ⟨[0, 0, 0, 2], []⟩ q
      (by decide) (by decide) (by decide)
  · exact pack_index_sha1_self_check.2.2.1 demoSha1 minIdxBytes minIdxVal
      (by decide) (by decide) (by decide)
  · intro q
    exact pack_index_sha1_self_check.2.2.2 demoSha1 minIdxBytes 8 7 minIdxVal q
      (by decide) (by decide) (by decide)

/-- Content of a pack index carrying a well-formed Glacier tail directly
after the (zero) object records: flag 0x01, u64 string length 8, an 8-byte
archive id (`AAAAAAAA`), and a u64 pack size. -/
def glacierIdxContent : List Nat :=
  [255, 116, 79, 99] ++ [0, 0, 0, 2] ++ List.replicate 1024 0 ++
    ([1] ++ [0, 0, 0, 0, 0, 0, 0, 8] ++ List.replicate 8 65 ++ [0, 0, 0, 0, 9, 9, 9, 9])

/-- The Glacier-tailed index with its correct trailing digest. -/
def glacierIdxBytes : List Nat := glacierIdxContent ++ demoSha1 glacierIdxContent

/-- C5: the byte directly after the fixed-size object records of
`glacierIdxBytes` is 0x01, so by the claim (and by the crate's own format
documentation) the parser should read the archive id `AAAAAAAA` and the
pack size with `glacier_archive_id_present = true`. Instead `PackIndex::new`
first consumes 21 bytes blindly, examines a pack-size byte (9) as the flag,
and returns the index with `glacier_archive_id_present = false` and no
archive id — the latent Glacier-tail bug. -/
theorem packindex_glacier_tail_misparsed :
    (glacierIdxContent.drop 1032).head? = some 1 ∧
    PackIndex.new demoSha1 glacierIdxBytes =
      .ok ⟨[0, 0, 0, 2], List.replicate 256 [0, 0, 0, 0], [], false, [], 0⟩ := by
  refine ⟨by decide, by decide⟩

theorem parsePackIndexObjects_length (n : Nat) (s : List Nat)
    (pr : List PackIndexObject × List Nat)
    (h : parsePackIndexObjects n s = .ok pr) : pr.1.length = n := by
  induction n generalizing s pr with
  | zero =>
    unfold parsePackIndexObjects at h
    simp at h
    rw [← h]
    rfl
  | succ m ih =>
    unfold parsePackIndexObjects at h
    obtain ⟨a, _, h⟩ := PRes.bind_eq_ok _ _ _ h
    obtain ⟨b, hb, h⟩ := PRes.bind_eq_ok _ _ _ h
    simp at h
    rw [← h]
    simp [ih a.2 b hb]

theorem parseFanout_length (n : Nat) (s : List Nat) (pr : List (List Nat) × List Nat)
    (h : parseFanout n s = .ok pr) : pr.1.length = n := by
  induction n generalizing s pr with
  | zero =>
    unfold parseFanout at h
    simp at h
    rw [← h]
    rfl
  | succ m ih =>
    unfold parseFanout at h
    obtain ⟨a, _, h⟩ := PRes.bind_eq_ok _ _ _ h
    obtain ⟨b, hb, h⟩ := PRes.bind_eq_ok _ _ _ h
    simp at h
    rw [← h]
    simp [ih a.2 b hb]

theorem parseFanout_entry_length (n : Nat) (s : List Nat) (pr : List (List Nat) × List Nat)
    (h : parseFanout n s = .ok pr) : ∀ e ∈ pr.1, e.length = 4 := by
  induction n generalizing s pr with
  | zero =>
    unfold parseFanout at h
    simp at h
    rw [← h]
    simp
  | succ m ih =>
    unfold parseFanout at h
    obtain ⟨a, ha, h⟩ := PRes.bind_eq_ok _ _ _ h
    obtain ⟨b, hb, h⟩ := PRes.bind_eq_ok _ _ _ h
    simp at h
    rw [← h]
    intro e he
    simp at he
    rcases he with he | he
    · obtain ⟨a1, a2⟩ := a
      obtain ⟨hl, _⟩ := readBytes_ok 4 s a1 a2 ha
      rw [he]
      exact hl
    · exact ih a.2 b hb e he

/-- C6 amended: every byte sequence `PackIndex::new` accepts yields
`objects.len()` equal to the big-endian u32 in `fanout[255]` — the parser
reads the count from the last fan-out entry and the object loop runs
exactly that many times. (Monotonicity of the fan-out is not checked by
the parser and can fail on accepted inputs.) -/
theorem packIndex_fanout_total (sha1 : List Nat → List Nat) (input : List Nat)
    (idx : PackIndex) (h : PackIndex.new sha1 input = .ok idx) :
    idx.objects.length = fromBE (idx.fanout.getD 255 []) := by
  obtain ⟨a, hbody, hchk⟩ := PRes.bind_eq_ok _ _ _ h
  obtain ⟨hav, _, _⟩ := checksumCheck_ok _ _ _ _ hchk
  subst hav
  unfold PackIndex.parseBody at hbody
  obtain ⟨mg, _, hbody⟩ := PRes.bind_eq_ok _ _ _ hbody
  by_cases hmg : mg.1 = [255, 116, 79, 99]
  · rw [if_pos hmg] at hbody
    obtain ⟨ver, _, hbody⟩ := PRes.bind_eq_ok _ _ _ hbody
    obtain ⟨fo, hfo, hbody⟩ := PRes.bind_eq_ok _ _ _ hbody
    obtain ⟨cnt, hcnt, hbody⟩ := PRes.bind_eq_ok _ _ _ hbody
    obtain ⟨objs, hobjs, hbody⟩ := PRes.bind_eq_ok _ _ _ hbody
    obtain ⟨g, _, hbody⟩ := PRes.bind_eq_ok _ _ _ hbody
    simp at hbody
    rw [← hbody]
    show objs.1.length = fromBE (fo.1.getD 255 [])
    have hlen := parsePackIndexObjects_length cnt.1 fo.2 objs hobjs
    have hfl := parseFanout_length 256 ver.2 fo hfo
    have hfe := parseFanout_entry_length 256 ver.2 fo hfo
    have hmem : fo.1.getD 255 [] ∈ fo.1 := by
      rw [List.getD_eq_getElem fo.1 [] (by omega)]
      exact List.getElem_mem _
    have hel : (fo.1.getD 255 []).length = 4 := hfe _ hmem
    unfold readU32 at hcnt
    obtain ⟨c4, hc4, hcnt⟩ := PRes.bind_eq_ok _ _ _ hcnt
    obtain ⟨hc4l, hc4e⟩ := readBytes_ok 4 _ c4.1 c4.2 hc4
    simp at hcnt
    have hc42 : c4.2 = [] := by
      have h1 := congrArg List.length hc4e
      rw [List.length_append, hc4l, hel] at h1
      have h2 : c4.2.length = 0 := by omega
      exact List.eq_nil_of_length_eq_zero h2
    rw [hc42, List.append_nil] at hc4e
    rw [hlen, ← hcnt]
    show fromBE c4.1 = fromBE (fo.1.getD 255 [])
    rw [hc4e]
  · rw [if_neg hmg] at hbody
    simp at hbody

/-- Content of a pack index accepted by the parser whose fan-out is NOT
non-decreasing: `fanout[0]` is 1 while every later entry, including
`fanout[255]`, is 0. -/
def nonMonoIdxContent : List Nat :=
  [255, 116, 79, 99] ++ [0, 0, 0, 2] ++ ([0, 0, 0, 1] ++ List.replicate 1020 0)

/-- The non-monotone index with its correct trailing digest. -/
def nonMonoIdxBytes : List Nat := nonMonoIdxContent ++ demoSha1 nonMonoIdxContent

/-- The parsed form of `nonMonoIdxBytes`. -/
def nonMonoIdxVal : PackIndex :=
  ⟨[0, 0, 0, 2], [0, 0, 0, 1] :: List.replicate 255 [0, 0, 0, 0], [], false, [], 0⟩

/-- C6: the claim asserts fan-out monotonicity for every accepted byte
sequence. `PackIndex::new` never checks it: this concrete index, whose
`fanout[0]` (1) exceeds `fanout[1]` (0), is accepted. -/
theorem packindex_fanout_not_monotone :
    PackIndex.new demoSha1 nonMonoIdxBytes = .ok nonMonoIdxVal ∧
    fromBE (nonMonoIdxVal.fanout.getD 1 []) < fromBE (nonMonoIdxVal.fanout.getD 0 []) := by
  refine ⟨by decide, by decide⟩

/-- C6 amended witness: the fan-out-total theorem applied at the concrete
accepted index `minIdxBytes`. -/
theorem packIndex_fanout_total_at_demo :
    minIdxVal.objects.length = fromBE (minIdxVal.fanout.getD 255 []) :=
  packIndex_fanout_total demoSha1 minIdxBytes minIdxVal (by decide)

/-- Observable cryptographic-envelope events of a decode path: a successful
HMAC validation, a failed one (the `assert_eq!` panic in `validate`), and
the production of plaintext by `EncryptedObject::decrypt`. -/
inductive CryptoEvent where
  | validateOk
  | validateFailed
  | decrypted
  deriving DecidableEq, Repr

/-- `Folder` (src/folder.rs lines 103-118); plist string fields are byte
lists. -/
structure Folder where
  bucket_name : List Nat
  bucket_uuid : List Nat
  computer_uuid : List Nat
  endpoint : List Nat
  exclude_items_with_time_machine_exclude_metadata_flag : Bool
  excludes : List (List Nat × List (List Nat))
  ignored_relative_paths : List (List Nat)
  local_mount_point : List Nat
  local_path : List Nat
  skip_during_backup : Bool
  skip_if_not_mounted : Bool
  storage_type : Nat
  deriving DecidableEq, Repr

/-- `Folder::from_content` (src/folder.rs lines 121-123): the external
plist deserialiser (`plistParse`); its failure is a `ParseError`. -/
def Folder.from_content (plistParse : List Nat → Option Folder)
    (content : List Nat) : PRes Folder :=
  match plistParse content with
  | some f => .ok f
  | Option.none => .err .parseError

/-- `Folder::new` (src/folder.rs lines 125-132), instrumented with the
envelope events it performs in order: the 9-byte `encrypted` header (a
failed `assert_eq!` panics), `EncryptedObject::new`, then
`validate(&master_keys[1])?` — the Vec indexing panics when fewer than two
keys are present — and only then `decrypt(&master_keys[0])` and the plist
parse of the plaintext. -/
def Folder.new (hmacSha256 : List Nat → List Nat → List Nat)
    (aes : List Nat → List Nat → List Nat → List Nat)
    (plistParse : List Nat → Option Folder)
    (input : List Nat) (master_keys : List (List Nat)) :
    PRes Folder × List CryptoEvent :=
  match readBytes 9 input with
  | .err e => (.err e, [])
  | .fatal => (.fatal, [])
  | .ok hd =>
    if hd.1 = [101, 110, 99, 114, 121, 112, 116, 101, 100] then
      match EncryptedObject.new hd.2 with
      | .err e => (.err e, [])
      | .fatal => (.fatal, [])
      | .ok obj =>
        if 2 ≤ master_keys.length then
          match obj.validate hmacSha256 (master_keys.getD 1 []) with
          | .ok _ =>
            match obj.decrypt aes (master_keys.getD 0 []) with
            | .ok content =>
              (Folder.from_content plistParse content, [.validateOk, .decrypted])
            | .err e => (.err e, [.validateOk])
            | .fatal => (.fatal, [.validateOk])
          | .err e => (.err e, [.validateFailed])
          | .fatal => (.fatal, [.validateFailed])
        else (.fatal, [])
    else (.fatal, [])

/-- `PackObject::original` (src/packset.rs lines 349-357), instrumented
with its envelope events: it calls `decrypt(master_key)` on its
`EncryptedObject` directly — no `validate` call anywhere — and then
decompresses the plaintext. -/
def PackObject.original (aes : List Nat → List Nat → List Nat → List Nat)
    (lz4dec : List Nat → PRes (List Nat)) (po : PackObject)
    (compression_type : CompressionType) (master_key : List Nat) :
    PRes (List Nat) × List CryptoEvent :=
  match po.data.decrypt aes master_key with
  | .ok decrypted =>
    match CompressionType.decompress lz4dec decrypted compression_type with
    | .ok content => (.ok content, [.decrypted])
    | .err e => (.err e, [.decrypted])
    | .fatal => (.fatal, [.decrypted])
  | .err e => (.err e, [])
  | .fatal => (.fatal, [])

theorem folder_new_trace (hmacSha256 : List Nat → List Nat → List Nat)
    (aes : List Nat → List Nat → List Nat → List Nat)
    (plistParse : List Nat → Option Folder)
    (input : List Nat) (master_keys : List (List Nat)) :
    (Folder.new hmacSha256 aes plistParse input master_keys).2 = [] ∨
    (Folder.new hmacSha256 aes plistParse input master_keys).2 = [.validateFailed] ∨
    (Folder.new hmacSha256 aes plistParse input master_keys).2 = [.validateOk] ∨
    (Folder.new hmacSha256 aes plistParse input master_keys).2 =
      [.validateOk, .decrypted] := by
  unfold Folder.new
  repeat' split
  all_goals simp

/-- An LZ4 stand-in for the decompression delegate, unused on the
uncompressed paths evaluated here. -/
def demoLz4 (_src : List Nat) : PRes (List Nat) := .err .decompressionError

/-- A pack object whose `EncryptedObject` decrypts cleanly under `demoAes`
but whose stored HMAC (32 bytes of 9) does NOT validate under `demoHmac`. -/
def demoPO : PackObject :=
  ⟨[], [], ⟨List.replicate 32 9, List.replicate 16 0,
    List.replicate 48 0 ++ List.replicate 16 16, List.replicate 16 16⟩⟩

/-- C1: the claim says no decode path decrypts before HMAC validation.
`PackObject::original` violates it: on this concrete pack object — whose
HMAC check would panic, as the second conjunct shows — `original` returns
plaintext with the event trace `[decrypted]`, containing no successful
validation. `Folder::new` does honour the ordering: its trace can contain
`decrypted` only directly after `validateOk` (third conjunct). -/
theorem original_decrypts_without_validate :
    (PackObject.original demoAes demoLz4 demoPO CompressionType.none key32
        = (.ok [], [.decrypted]) ∧
      EncryptedObject.validate demoHmac demoPO.data key32 = .fatal) ∧
    (∀ (hmacSha256 : List Nat → List Nat → List Nat)
        (aes : List Nat → List Nat → List Nat → List Nat)
        (plistParse : List Nat → Option Folder)
        (input : List Nat) (master_keys : List (List Nat)),
      CryptoEvent.decrypted ∈ (Folder.new hmacSha256 aes plistParse input master_keys).2 →
      (Folder.new hmacSha256 aes plistParse input master_keys).2 =
        [.validateOk, .decrypted]) := by
  refine ⟨⟨by decide, by decide⟩, ?_⟩
  intro hmacSha256 aes plistParse input master_keys hmem
  rcases folder_new_trace hmacSha256 aes plistParse input master_keys with h | h | h | h <;>
    rw [h] at hmem ⊢ <;> simp_all

/-- `BlobKey` (src/blob.rs lines 9-18). -/
structure BlobKey where
  sha1 : List Nat
  is_encryption_key_stretched : Bool
  storage_type : Nat
  archive_id : List Nat
  archive_size : Nat
  archive_upload_date : ArqDate
  deriving DecidableEq, Repr

/-- `BlobKey::new` (src/blob.rs lines 21-41): six fields are always read;
an empty `sha1` string yields `None` (an absent reference). -/
def BlobKey.new (s : List Nat) : PRes (Option BlobKey × List Nat) :=
  PRes.bind (read_arq_string s) fun sha =>
    PRes.bind (read_arq_bool sha.2) fun st =>
      PRes.bind (readU32 st.2) fun sty =>
        PRes.bind (read_arq_string sty.2) fun ai =>
          PRes.bind (readU64 ai.2) fun asz =>
            PRes.bind (ArqDate.new asz.2) fun ad =>
              if sha.1 = [] then .ok (Option.none, ad.2)
              else .ok (some ⟨sha.1, st.1, sty.1, ai.1, asz.1, ad.1⟩, ad.2)

/-- `Node` (src/tree.rs lines 104-136). The snapshot's struct declares the
compression-type fields as `CompressionType` while `Node::new` assigns the
`ArqCompressionType` values `read_arq_compression_type` yields; the model
keeps the parsed type. -/
structure Node where
  is_tree : Bool
  tree_contains_missing_items : Bool
  data_compression_type : ArqCompressionType
  xattrs_compression_type : ArqCompressionType
  acl_compression_type : ArqCompressionType
  data_blob_keys : List BlobKey
  data_size : Nat
  xattrs_blob_key : Option BlobKey
  xattrs_size : Nat
  acl_blob_key : Option BlobKey
  uid : Int
  gid : Int
  mode : Int
  mtime_sec : Int
  mtime_nsec : Int
  flags : Int
  finder_flags : Int
  extended_finder_flags : Int
  finder_file_type : List Nat
  finder_file_creator : List Nat
  is_file_extension_hidden : Bool
  st_dev : Int
  st_ino : Int
  st_nlink : Nat
  st_rdev : Int
  ctime_sec : Int
  ctime_nsec : Int
  create_time_sec : Int
  create_time_nsec : Int
  st_blocks : Int
  st_blksize : Nat
  deriving DecidableEq, Repr

/-- The `while data_blob_keys_count > 0` loop of `Node::new` (src/tree.rs
lines 148-153): the counter only decrements when `BlobKey::new` yields a
present key; an absent key just advances the stream. Every iteration
consumes at least 16 bytes of the finite stream, so running the loop with
the remaining stream length as fuel never exhausts the fuel before a read
fails; the fuel-out arm returns the same `IoError` an exhausted stream
produces. -/
def parseDataBlobKeys : Nat → Int → List Nat → PRes (List BlobKey × List Nat)
  | 0, _, _ => .err .ioError
  | fuel + 1, count, s =>
    if count > 0 then
      PRes.bind (BlobKey.new s) fun bk =>
        match bk.1 with
        | some k =>
          PRes.bind (parseDataBlobKeys fuel (count - 1) bk.2) fun q =>
            .ok (k :: q.1, q.2)
        | Option.none => parseDataBlobKeys fuel count bk.2
    else .ok ([], s)

/-- `Node::new` (src/tree.rs lines 139-213): the fields in their exact
read order. -/
def Node.new (s : List Nat) : PRes (Node × List Nat) :=
  PRes.bind (read_arq_bool s) fun it =>
    PRes.bind (read_arq_bool it.2) fun tcmi =>
      PRes.bind (read_arq_compression_type tcmi.2) fun dct =>
        PRes.bind (read_arq_compression_type dct.2) fun xct =>
          PRes.bind (read_arq_compression_type xct.2) fun act =>
            PRes.bind (readI32 act.2) fun cnt =>
              PRes.bind (parseDataBlobKeys (cnt.2.length + 1) cnt.1 cnt.2) fun dbk =>
                PRes.bind (readU64 dbk.2) fun dsz =>
                  PRes.bind (BlobKey.new dsz.2) fun xbk =>
                    PRes.bind (readU64 xbk.2) fun xsz =>
                      PRes.bind (BlobKey.new xsz.2) fun abk =>
                        PRes.bind (readI32 abk.2) fun uid =>
                          PRes.bind (readI32 uid.2) fun gid =>
                            PRes.bind (readI32 gid.2) fun mode =>
                              PRes.bind (readI64 mode.2) fun mts =>
                                PRes.bind (readI64 mts.2) fun mtn =>
                                  PRes.bind (readI64 mtn.2) fun flags =>
                                    PRes.bind (readI32 flags.2) fun ff =>
                                      PRes.bind (readI32 ff.2) fun eff =>
                                        PRes.bind (read_arq_string eff.2) fun fft =>
                                          PRes.bind (read_arq_string fft.2) fun ffc =>
                                            PRes.bind (read_arq_bool ffc.2) fun hid =>
                                              PRes.bind (readI32 hid.2) fun sdev =>
                                                PRes.bind (readI32 sdev.2) fun sino =>
                                                  PRes.bind (readU32 sino.2) fun snl =>
                                                    PRes.bind (readI32 snl.2) fun srd =>
                                                      PRes.bind (readI64 srd.2) fun cts =>
                                                        PRes.bind (readI64 cts.2) fun ctn =>
                                                          PRes.bind (readI64 ctn.2) fun crs =>
                                                            PRes.bind (readI64 crs.2) fun crn =>
                                                              PRes.bind (readI64 crn.2) fun sbl =>
                                                                PRes.bind (readU32 sbl.2) fun sbs =>
                                                                  .ok (⟨it.1, tcmi.1, dct.1, xct.1, act.1, dbk.1, dsz.1,
                                                                    xbk.1, xsz.1, abk.1, uid.1, gid.1, mode.1, mts.1,
                                                                    mtn.1, flags.1, ff.1, eff.1, fft.1, ffc.1, hid.1,
                                                                    sdev.1, sino.1, snl.1, srd.1, cts.1, ctn.1, crs.1,
                                                                    crn.1, sbl.1, sbs.1⟩, sbs.2)

/-- `Tree` (src/tree.rs lines 260-287), named `ArqTree` because Mathlib
already declares a `Tree`; the name→Node `HashMap` is an association list
in insertion order. -/
structure ArqTree where
  version : Nat
  xattrs_compression_type : ArqCompressionType
  acl_compression_type : ArqCompressionType
  xattrs_blob_key : Option BlobKey
  xattrs_size : Nat
  acl_blob_key : Option BlobKey
  uid : Int
  gid : Int
  mode : Int
  mtime_sec : Int
  mtime_nsec : Int
  flags : Int
  finder_flags : Int
  extended_finder_flags : Int
  st_dev : Int
  st_ino : Int
  st_nlink : Nat
  st_rdev : Int
  ctime_sec : Int
  ctime_nsec : Int
  create_time_sec : Int
  create_time_nsec : Int
  st_blocks : Int
  st_blksize : Nat
  missing_nodes : List (List Nat)
  nodes : List (List Nat × Node)
  deriving DecidableEq, Repr

/-- `HashMap::insert`: replaces the value of an existing key, appends a new
key. -/
def hashMapInsert (m : List (List Nat × Node)) (k : List Nat) (v : Node) :
    List (List Nat × Node) :=
  if m.any (fun p => p.1 == k) then
    m.map fun p => if p.1 == k then (k, v) else p
  else m ++ [(k, v)]

/-- Decimal digits of a `str::parse::<u32>` body (after the optional sign):
non-empty all-digit text. -/
def natDigits (l : List Nat) : Option Nat :=
  if l.isEmpty then Option.none
  else
    l.foldl
      (fun acc b =>
        acc.bind fun v =>
          if 48 ≤ b && b ≤ 57 then some (v * 10 + (b - 48)) else Option.none)
      (some 0)

/-- `str::from_utf8(..)?.parse::<u32>()?`: invalid UTF-8 is a
`ConversionError`; a malformed or overflowing number is a `ParseError`
(`parse::<u32>` accepts an optional leading `+`). -/
def parseU32Ascii (l : List Nat) : PRes Nat :=
  if validUtf8 l then
    match natDigits (if l.head? = some 43 then l.tail else l) with
    | some v => if v < 2 ^ 32 then .ok v else .err .parseError
    | Option.none => .err .parseError
  else .err .conversionError

/-- The `while missing_node_count > 0` loop of `Tree::new`. -/
def parseMissingNodes : Nat → List Nat → PRes (List (List Nat) × List Nat)
  | 0, s => .ok ([], s)
  | n + 1, s =>
    PRes.bind (read_arq_string s) fun nm =>
      PRes.bind (parseMissingNodes n nm.2) fun q => .ok (nm.1 :: q.1, q.2)

/-- The `while node_count > 0` loop of `Tree::new` (src/tree.rs lines
340-347): a name (the `assert!(!node_name.is_empty())` panics on an empty
one), a node, and a plain `HashMap::insert` — no duplicate check. -/
def parseTreeNodes : Nat → List (List Nat × Node) → List Nat →
    PRes (List (List Nat × Node) × List Nat)
  | 0, m, s => .ok (m, s)
  | n + 1, m, s =>
    PRes.bind (read_arq_string s) fun nm =>
      if nm.1 = [] then .fatal
      else
        PRes.bind (Node.new nm.2) fun nd =>
          parseTreeNodes n (hashMapInsert m nm.1 nd.1) nd.2

/-- `Tree::new` (src/tree.rs lines 299-377): decompress, 8-byte header
whose first 5 bytes must be `TreeV` (a failed `assert_eq!` panics), the
version parsed from the last 3 header bytes, then the fixed fields in
their exact read order, the missing-node names, and the (name, Node)
pairs. -/
def ArqTree.new (lz4dec : List Nat → PRes (List Nat)) (compressed_content : List Nat)
    (compression_type : CompressionType) : PRes ArqTree :=
  PRes.bind (CompressionType.decompress lz4dec compressed_content compression_type)
    fun content =>
  PRes.bind (readBytes 8 content) fun th =>
    if th.1.take 5 = [84, 114, 101, 101, 86] then
      PRes.bind (parseU32Ascii (th.1.drop 5)) fun version =>
        PRes.bind (read_arq_compression_type th.2) fun xct =>
          PRes.bind (read_arq_compression_type xct.2) fun act =>
            PRes.bind (BlobKey.new act.2) fun xbk =>
              PRes.bind (readU64 xbk.2) fun xsz =>
                PRes.bind (BlobKey.new xsz.2) fun abk =>
                  PRes.bind (readI32 abk.2) fun uid =>
                    PRes.bind (readI32 uid.2) fun gid =>
                      PRes.bind (readI32 gid.2) fun mode =>
                        PRes.bind (readI64 mode.2) fun mts =>
                          PRes.bind (readI64 mts.2) fun mtn =>
                            PRes.bind (readI64 mtn.2) fun flags =>
                              PRes.bind (readI32 flags.2) fun ff =>
                                PRes.bind (readI32 ff.2) fun eff =>
                                  PRes.bind (readI32 eff.2) fun sdev =>
                                    PRes.bind (readI32 sdev.2) fun sino =>
                                      PRes.bind (readU32 sino.2) fun snl =>
                                        PRes.bind (readI32 snl.2) fun srd =>
                                          PRes.bind (readI64 srd.2) fun cts =>
                                            PRes.bind (readI64 cts.2) fun ctn =>
                                              PRes.bind (readI64 ctn.2) fun sbl =>
                                                PRes.bind (readU32 sbl.2) fun sbs =>
                                                  PRes.bind (readI64 sbs.2) fun crs =>
                                                    PRes.bind (readI64 crs.2) fun crn =>
                                                      PRes.bind (readU32 crn.2) fun mnc =>
                                                        PRes.bind (parseMissingNodes mnc.1 mnc.2) fun mns =>
                                                          PRes.bind (readU32 mns.2) fun nc =>
                                                            PRes.bind (parseTreeNodes nc.1 [] nc.2) fun nds =>
                                                              .ok ⟨version, xct.1, act.1, xbk.1, xsz.1, abk.1,
                                                                uid.1, gid.1, mode.1, mts.1, mtn.1, flags.1,
                                                                ff.1, eff.1, sdev.1, sino.1, snl.1, srd.1,
                                                                cts.1, ctn.1, crs.1, crn.1, sbl.1, sbs.1,
                                                                mns.1, nds.1⟩
    else .fatal

/-- A 173-byte all-zero `Node` body whose 8-byte `data_size` field ends in
the byte `b` (so `data_size = b`): two bools, three compression tags, a
zero blob-key count, then `data_size` and the remaining zeroed fields. -/
def nodeBytes (b : Nat) : List Nat :=
  List.replicate 25 0 ++ [b] ++ List.replicate 147 0

/-- One (name, Node) pair with the one-byte name `A`. -/
def treeEntry (b : Nat) : List Nat :=
  [1, 0, 0, 0, 0, 0, 0, 0, 1, 65] ++ nodeBytes b

/-- A `TreeV022` byte stream with two pairs of the SAME name `A`: the first
node carries `data_size` 5, the second `data_size` 7. -/
def treeDupBytes : List Nat :=
  [84, 114, 101, 101, 86, 48, 50, 50] ++ List.replicate 156 0 ++ [0, 0, 0, 2] ++
    treeEntry 5 ++ treeEntry 7

/-- The (name, data_size) pairs of a parsed tree, empty on failure. -/
def treeNodesDataSizes : PRes ArqTree → List (List Nat × Nat)
  | .ok t => t.nodes.map fun p => (p.1, p.2.data_size)
  | _ => []

/-- C8: the claim says a tree with two equal names fails with a format
error. `Tree::new` accepts `treeDupBytes`, whose two pairs share the name
`A`: there is no duplicate check. -/
theorem tree_duplicate_names_accepted :
    (ArqTree.new demoLz4 treeDupBytes CompressionType.none).isOk = true := by
  decide

/-- C8 amended: duplicate names are not a format error; the later pair
silently replaces the earlier in the name→Node map. Parsing `treeDupBytes`
succeeds and yields exactly one entry for `A`, carrying the second node's
`data_size` 7 — the first node (`data_size` 5) was replaced. -/
theorem tree_duplicate_names_last_wins :
    treeNodesDataSizes (ArqTree.new demoLz4 treeDupBytes CompressionType.none)
      = [([65], 7)] ∧
    ArqTree.new demoLz4 treeDupBytes CompressionType.none ≠ .fatal := by
  refine ⟨by decide, by decide⟩

/-- `LZ4_compressBound` of the LZ4 C library: the worst-case compressed
size `n + n/255 + 16`. -/
def LZ4_compressBound (n : Nat) : Nat := n + n / 255 + 16

/-- Big-endian four-byte encoding, as `write_i32::<NetworkEndian>` writes a
non-negative i32. -/
def beBytes4 (n : Nat) : List Nat :=
  [n / 2 ^ 24 % 256, n / 2 ^ 16 % 256, n / 2 ^ 8 % 256, n % 256]

/-- `lz4_compress` (src/lz4.rs lines 8-34): it takes `original_len` from
`LZ4_compressBound(src_len)` — NOT the source length — writes those four
big-endian bytes, allocates a `compressBound`-sized tail the C compressor
(`compressFFI`, writing in place over the zeroed buffer) fills, asserts the
C return code (`compressRet`) is non-zero, and returns the entire buffer —
trailing zeros included. -/
def lz4_compress (compressFFI : List Nat → List Nat → List Nat)
    (compressRet : List Nat → Nat) (src : List Nat) : PRes (List Nat) :=
  if compressRet src = 0 then .fatal
  else
    .ok (beBytes4 (LZ4_compressBound src.length) ++
      compressFFI src (List.replicate (LZ4_compressBound src.length) 0))

/-- `lz4_decompress` (src/lz4.rs lines 36-47): read the i32 length prefix,
allocate that many zero bytes, run the C decoder (`decompressFFI`, writing
in place) over `src[4..]` — its return code is IGNORED — and return the
whole buffer. A negative prefix would be cast to a huge `usize` and abort
the allocation, modelled as a panic. -/
def lz4_decompress (decompressFFI : List Nat → List Nat → List Nat)
    (src : List Nat) : PRes (List Nat) :=
  PRes.bind (readI32 src) fun ol =>
    if ol.1 < 0 then .fatal
    else .ok (decompressFFI (src.drop 4) (List.replicate ol.1.toNat 0))

/-- The bytes of `"Test string we want to compress"` (31 bytes). -/
def lz4TestInput : List Nat :=
  [84, 101, 115, 116, 32, 115, 116, 114, 105, 110, 103, 32, 119, 101, 32, 119,
   97, 110, 116, 32, 116, 111, 32, 99, 111, 109, 112, 114, 101, 115, 115]

/-- An in-place-writer stand-in for the C compressor: leaves the output
buffer unchanged (length-preserving, as any in-place writer is). -/
def demoLz4Comp (_src dst : List Nat) : List Nat := dst

/-- A return-code stand-in for `LZ4_compress_default`: non-zero. -/
def demoLz4Ret (_src : List Nat) : Nat := 1

/-- An in-place-writer stand-in for the C decompressor. -/
def demoLz4Dec (_src dst : List Nat) : List Nat := dst

/-- C9: the claim says compress-then-decompress on the test string yields
exactly the input with equal length. The decompressed buffer has length
`LZ4_compressBound(31) = 47` — the length prefix the compressor writes —
so it is not the input and its length differs from 31. (Evaluated with
length-preserving stand-ins for the C coder; the lengths are forced by the
crate's own plumbing for every such coder.) -/
theorem lz4_roundtrip_not_input :
    PRes.bind (lz4_compress demoLz4Comp demoLz4Ret lz4TestInput)
      (lz4_decompress demoLz4Dec) = .ok (List.replicate 47 0) ∧
    List.replicate 47 0 ≠ lz4TestInput ∧
    (List.replicate 47 0).length ≠ lz4TestInput.length := by
  refine ⟨by decide, by decide, by decide⟩

/-- C9 amended: for every length-preserving C coder with a non-zero
compress return code, the round trip on the test string succeeds and the
decompressed output has length `LZ4_compressBound(31) = 47`, not the input
length 31: the crate's own test only compares the first 31 bytes. -/
theorem lz4_roundtrip_length
    (compressFFI decompressFFI : List Nat → List Nat → List Nat)
    (compressRet : List Nat → Nat)
    (hdl : ∀ s d, (decompressFFI s d).length = d.length)
    (hr : compressRet lz4TestInput ≠ 0) :
    ∃ c, lz4_compress compressFFI compressRet lz4TestInput = .ok c ∧
      ∃ d, lz4_decompress decompressFFI c = .ok d ∧
        d.length = 47 ∧ lz4TestInput.length = 31 := by
  have hb : LZ4_compressBound lz4TestInput.length = 47 := by decide
  have hcomp : lz4_compress compressFFI compressRet lz4TestInput
      = .ok (beBytes4 47 ++ compressFFI lz4TestInput (List.replicate 47 0)) := by
    unfold lz4_compress
    rw [if_neg hr, hb]
  refine ⟨_, hcomp, ?_⟩
  have hv : toSigned 32 (fromBE (beBytes4 47)) = 47 := by decide
  have e1 : readBytes 4 (beBytes4 47 ++ compressFFI lz4TestInput (List.replicate 47 0))
      = .ok (beBytes4 47, compressFFI lz4TestInput (List.replicate 47 0)) :=
    readBytes_append' 4 _ _ (by decide)
  have e2 : lz4_decompress decompressFFI
      (beBytes4 47 ++ compressFFI lz4TestInput (List.replicate 47 0))
      = .ok (decompressFFI
          ((beBytes4 47 ++ compressFFI lz4TestInput (List.replicate 47 0)).drop 4)
          (List.replicate 47 0)) := by
    unfold lz4_decompress readI32
    rw [e1]
    show (if toSigned 32 (fromBE (beBytes4 47)) < 0 then PRes.fatal
      else .ok (decompressFFI
        ((beBytes4 47 ++ compressFFI lz4TestInput (List.replicate 47 0)).drop 4)
        (List.replicate (toSigned 32 (fromBE (beBytes4 47))).toNat 0))) = _
    rw [hv]
    rw [if_neg (by decide : ¬((47 : Int) < 0))]
    rfl
  refine ⟨_, e2, ?_, by decide⟩
  rw [hdl]
  simp

/-- C9 amended witness: the round-trip length theorem applied to the
concrete stand-in coder. -/
theorem lz4_roundtrip_length_at_demo :
    ∃ c, lz4_compress demoLz4Comp demoLz4Ret lz4TestInput = .ok c ∧
      ∃ d, lz4_decompress demoLz4Dec c = .ok d ∧
        d.length = 47 ∧ lz4TestInput.length = 31 :=
  lz4_roundtrip_length demoLz4Comp demoLz4Dec demoLz4Ret
    (fun _ _ => rfl) (by decide)
